import Mathlib

/-!
Shallow embedding of `meshopt_simplify_with_uvs` from
`src/Native/meshoptimizer/meshopt_wrapper.cpp`.

Modelling decisions:
* C pointers become `Option` values; a buffer pointer carries the buffer's
  current contents as a list.  A dereference of a null pointer is modelled as
  the outcome `CallOutcome.crash` (undefined behaviour in C).
* `size_t` becomes `Nat`; C `float` becomes `ℚ` (exact arithmetic standing in
  for the float computations; all comparisons performed by the wrapper are
  sign tests, which floats decide exactly).  `static_cast<size_t>` of a
  non-negative float value is truncation, i.e. `Nat.floor`.
* The external geometry engine (`meshopt_simplify` /
  `meshopt_simplifyWithAttributes` from meshoptimizer, outside this
  repository) is a parameter: a function from the argument record the wrapper
  passes (`EngineCall`) to the values it returns (`EngineOut`): the returned
  index count, the entries it writes at the front of the destination buffer,
  and the achieved error it stores through the out-pointer.
* The wrapper returns through out-pointers; here the outcome carries the
  destination buffer contents after the call, the written `MeshoptSimplifyResult`,
  and a trace of the engine invocation (`none` when the engine was not called).
-/

namespace MeshoptWrapper

/-- `MeshoptSimplifyOptions` from `meshopt_wrapper.h`.  The two C `int`
booleans are kept as `Int` (tested against zero, as C does). -/
structure MeshoptSimplifyOptions where
  target_index_count : Nat
  target_ratio : ℚ
  target_error : ℚ
  uv_weight : ℚ
  lock_border : Int
  error_is_absolute : Int
deriving DecidableEq, Repr

/-- `MeshoptSimplifyResult` from `meshopt_wrapper.h` (`success` is a C `int`:
1 = success, 0 = failure; the fixed 256-byte message array is a `String`,
all messages written by the wrapper being far below the bound). -/
structure MeshoptSimplifyResult where
  index_count : Nat
  result_error : ℚ
  success : Int
  error_message : String
deriving DecidableEq, Repr

/-- The argument record the wrapper passes to the geometry engine.
`attributePath = true` means `meshopt_simplifyWithAttributes` was invoked;
`false` means the basic `meshopt_simplify`.  The attribute fields are only
populated on the attribute path (the basic engine entry point has no such
parameters). -/
structure EngineCall where
  attributePath : Bool
  indices : List Nat
  index_count : Nat
  vertex_positions : List ℚ
  vertex_count : Nat
  vertex_stride : Nat
  vertex_attributes : Option (List ℚ)
  attribute_stride : Nat
  attribute_weights : List ℚ
  attribute_count : Nat
  vertex_lock : Option (List Int)
  target_index_count : Nat
  target_error : ℚ
  flags : Nat
deriving DecidableEq, Repr

/-- What the engine gives back: its return value (the new index count), the
entries it writes at the start of the destination buffer, and the achieved
error stored through `&result_error`. -/
structure EngineOut where
  new_index_count : Nat
  written : List Nat
  result_error : ℚ
deriving DecidableEq, Repr

/-- Outcome of one wrapper call.  `crash` models a null-pointer dereference
(undefined behaviour); `ok dest res call` gives the destination buffer after
the call (`none` when the destination pointer itself was null), the result
record written through the result pointer, and the engine invocation trace
(`none` when validation failed before the engine). -/
inductive CallOutcome where
  | crash : CallOutcome
  | ok : Option (List Nat) → MeshoptSimplifyResult → Option EngineCall → CallOutcome
deriving DecidableEq, Repr

/-- Flag bit `meshopt_SimplifyLockBorder` of the external meshoptimizer
header (bit 0). -/
def meshopt_SimplifyLockBorder : Nat := 1

/-- Flag bit `meshopt_SimplifyErrorAbsolute` of the external meshoptimizer
header (bit 2). -/
def meshopt_SimplifyErrorAbsolute : Nat := 4

/-- The option-to-flag mapping of `meshopt_wrapper.cpp` lines 70-77:
start from 0, OR in the lock-border bit when `lock_border` is truthy, OR in
the absolute-error bit when `error_is_absolute` is truthy. -/
def deriveFlags (opts : MeshoptSimplifyOptions) : Nat :=
  let f0 : Nat := 0
  let f1 : Nat := if opts.lock_border ≠ 0 then f0 ||| meshopt_SimplifyLockBorder else f0
  if opts.error_is_absolute ≠ 0 then f1 ||| meshopt_SimplifyErrorAbsolute else f1

/-- The target-count derivation of `meshopt_wrapper.cpp` lines 58-68:
take `options->target_index_count`; when it is 0 and `target_ratio > 0`,
truncate `index_count * target_ratio` to an integer and round down to a
multiple of 3; finally clamp a zero target up to 3. -/
def deriveTarget (index_count : Nat) (opts : MeshoptSimplifyOptions) : Nat :=
  let t0 := opts.target_index_count
  let t1 :=
    if t0 = 0 ∧ 0 < opts.target_ratio then
      (⌊(index_count : ℚ) * opts.target_ratio⌋₊ / 3) * 3
    else t0
  if t1 = 0 then 3 else t1

/-- The variant selection of `meshopt_wrapper.cpp` lines 84-126: the argument
record handed to the engine.  When `vertex_uvs` is non-null and
`uv_weight > 0`, `meshopt_simplifyWithAttributes` is called with the UV
buffer as two scalar attributes (`attribute_count = 2`), both weighted by
`uv_weight`, and a null `vertex_lock`; otherwise the basic
`meshopt_simplify` is called. -/
def buildEngineCall (indices : List Nat) (index_count : Nat)
    (vertex_positions : List ℚ) (vertex_count vertex_stride : Nat)
    (vertex_uvs : Option (List ℚ)) (uv_stride : Nat)
    (opts : MeshoptSimplifyOptions) : EngineCall :=
  let basic : EngineCall :=
    { attributePath := false
      indices := indices
      index_count := index_count
      vertex_positions := vertex_positions
      vertex_count := vertex_count
      vertex_stride := vertex_stride
      vertex_attributes := none
      attribute_stride := 0
      attribute_weights := []
      attribute_count := 0
      vertex_lock := none
      target_index_count := deriveTarget index_count opts
      target_error := opts.target_error
      flags := deriveFlags opts }
  match vertex_uvs with
  | some uvs =>
      if 0 < opts.uv_weight then
        { basic with
            attributePath := true
            vertex_attributes := some uvs
            attribute_stride := uv_stride
            attribute_weights := [opts.uv_weight, opts.uv_weight]
            attribute_count := 2 }
      else basic
  | none => basic

/-- A failed result as the wrapper leaves it: the fields initialised at the
top of the function (count 0, error 0, success 0) with the message written by
`strncpy`. -/
def failResult (msg : String) : MeshoptSimplifyResult :=
  { index_count := 0, result_error := 0, success := 0, error_message := msg }

/-- The tail of the wrapper after validation succeeds: invoke the engine,
let it write the front of the destination buffer, and package
`{ new_index_count, result_error, success = 1, empty message }`. -/
def engineBranch (engine : EngineCall → EngineOut) (dest : List Nat)
    (c : EngineCall) : CallOutcome :=
  CallOutcome.ok
    (some ((engine c).written ++ dest.drop (engine c).written.length))
    { index_count := (engine c).new_index_count
      result_error := (engine c).result_error
      success := 1
      error_message := "" }
    (some c)

/-- The body of `meshopt_simplify_with_uvs` after the null-pointer check has
passed (`meshopt_wrapper.cpp` lines 47-131): the empty-mesh check, then the
multiple-of-3 check, then target derivation, flag mapping, variant selection
and the engine call. -/
def simplifyValidated (engine : EngineCall → EngineOut)
    (dest indices : List Nat) (index_count : Nat)
    (vertex_positions : List ℚ) (vertex_count vertex_stride : Nat)
    (vertex_uvs : Option (List ℚ)) (uv_stride : Nat)
    (opts : MeshoptSimplifyOptions) : CallOutcome :=
  if index_count = 0 ∨ vertex_count = 0 then
    CallOutcome.ok (some dest)
      (failResult "Empty mesh (zero indices or vertices)") none
  else if index_count % 3 ≠ 0 then
    CallOutcome.ok (some dest)
      (failResult "Index count must be multiple of 3") none
  else
    engineBranch engine dest
      (buildEngineCall indices index_count vertex_positions vertex_count
        vertex_stride vertex_uvs uv_stride opts)

/-- `meshopt_simplify_with_uvs` (`meshopt_wrapper.cpp` lines 24-132).
The function first writes the initial result fields through `result`
(lines 37-40): when `result` is null this is a null dereference, modelled as
`crash`.  Then the combined null check of line 42 runs (its `!result` arm can
never fire, the pointer having already been dereferenced); a null
`destination`, `indices`, `vertex_positions` or `options` leaves the
destination untouched and stores the null-pointer message.  Then
`simplifyValidated` is the rest of the body. -/
def meshopt_simplify_with_uvs (engine : EngineCall → EngineOut)
    (destination indices : Option (List Nat)) (index_count : Nat)
    (vertex_positions : Option (List ℚ)) (vertex_count vertex_stride : Nat)
    (vertex_uvs : Option (List ℚ)) (uv_stride : Nat)
    (options : Option MeshoptSimplifyOptions)
    (result : Option MeshoptSimplifyResult) : CallOutcome :=
  match result with
  | none => CallOutcome.crash
  | some _ =>
    match destination, indices, vertex_positions, options with
    | some dest, some idx, some vpos, some opts =>
        simplifyValidated engine dest idx index_count vpos vertex_count
          vertex_stride vertex_uvs uv_stride opts
    | _, _, _, _ =>
        CallOutcome.ok destination
          (failResult "Null pointer in required parameter") none

/-- The result record of an outcome, when one was produced. -/
def resultOf : CallOutcome → Option MeshoptSimplifyResult
  | CallOutcome.crash => none
  | CallOutcome.ok _ res _ => some res

/-- The engine-invocation trace of an outcome. -/
def engineCallOf : CallOutcome → Option EngineCall
  | CallOutcome.crash => none
  | CallOutcome.ok _ _ c => c

/-- An engine that satisfies the meshoptimizer contract trivially: it
returns 0 indices and writes nothing.  Used to instantiate witnesses. -/
def zeroEngine : EngineCall → EngineOut :=
  fun _ => { new_index_count := 0, written := [], result_error := 0 }

/-- Default options: everything zero. -/
def defaultOptions : MeshoptSimplifyOptions :=
  { target_index_count := 0, target_ratio := 0, target_error := 0
    uv_weight := 0, lock_border := 0, error_is_absolute := 0 }

/-- A blank result record, standing for the caller's result variable before
the call. -/
def blankResult : MeshoptSimplifyResult :=
  { index_count := 0, result_error := 0, success := 0, error_message := "" }

/-- Nine position floats: three vertices. -/
def vp3 : List ℚ := [0, 0, 0, 1, 0, 0, 0, 1, 0]

/-- Six UV floats: three vertices. -/
def uv3 : List ℚ := [0, 0, 1, 0, 0, 1]

/-- Options selecting the attribute path: explicit target 3, unit UV weight. -/
def optsUV : MeshoptSimplifyOptions :=
  { target_index_count := 3, target_ratio := 0, target_error := 0
    uv_weight := 1, lock_border := 0, error_is_absolute := 0 }

/-- Options with both boolean flags set. -/
def optsBothFlags : MeshoptSimplifyOptions :=
  { target_index_count := 3, target_ratio := 0, target_error := 0
    uv_weight := 0, lock_border := 1, error_is_absolute := 1 }

/-- Options with an explicit target of 1 (not a multiple of 3). -/
def optsTargetOne : MeshoptSimplifyOptions :=
  { target_index_count := 1, target_ratio := 0, target_error := 0
    uv_weight := 0, lock_border := 0, error_is_absolute := 0 }

/-- Options with a ratio of 2, outside the documented (0, 1] range. -/
def optsRatioTwo : MeshoptSimplifyOptions :=
  { target_index_count := 0, target_ratio := 2, target_error := 0
    uv_weight := 0, lock_border := 0, error_is_absolute := 0 }

/-- Options with a negative ratio. -/
def optsRatioNeg : MeshoptSimplifyOptions :=
  { target_index_count := 0, target_ratio := -1, target_error := 0
    uv_weight := 0, lock_border := 0, error_is_absolute := 0 }

/-! ## Helper lemmas -/

theorem run_some_eq (engine : EngineCall → EngineOut) (dst idx : List Nat)
    (ic : Nat) (vp : List ℚ) (vc vs : Nat) (uvs : Option (List ℚ)) (us : Nat)
    (opts : MeshoptSimplifyOptions) (r0 : MeshoptSimplifyResult) :
    meshopt_simplify_with_uvs engine (some dst) (some idx) ic (some vp) vc vs
        uvs us (some opts) (some r0) =
      simplifyValidated engine dst idx ic vp vc vs uvs us opts := rfl

theorem simplifyValidated_ok_engine {engine : EngineCall → EngineOut}
    {dst idx : List Nat} {ic : Nat} {vp : List ℚ} {vc vs : Nat}
    {uvs : Option (List ℚ)} {us : Nat} {opts : MeshoptSimplifyOptions}
    {d : Option (List Nat)} {res : MeshoptSimplifyResult} {c : EngineCall}
    (h : simplifyValidated engine dst idx ic vp vc vs uvs us opts =
      CallOutcome.ok d res (some c)) :
    ic ≠ 0 ∧ vc ≠ 0 ∧ ic % 3 = 0 ∧
    c = buildEngineCall idx ic vp vc vs uvs us opts ∧
    d = some ((engine c).written ++ dst.drop (engine c).written.length) ∧
    res = { index_count := (engine c).new_index_count
            result_error := (engine c).result_error
            success := 1, error_message := "" } := by
  unfold simplifyValidated at h
  split_ifs at h with h1 h2
  · simp at h
  · simp at h
  · unfold engineBranch at h
    rw [CallOutcome.ok.injEq] at h
    obtain ⟨hd, hres, hc⟩ := h
    rw [Option.some.injEq] at hc
    push_neg at h1 h2
    subst hc
    exact ⟨h1.1, h1.2, h2, rfl, hd.symm, hres.symm⟩

theorem buildEngineCall_fixed (idx : List Nat) (ic : Nat) (vp : List ℚ)
    (vc vs : Nat) (uvs : Option (List ℚ)) (us : Nat)
    (opts : MeshoptSimplifyOptions) :
    (buildEngineCall idx ic vp vc vs uvs us opts).index_count = ic ∧
    (buildEngineCall idx ic vp vc vs uvs us opts).target_index_count =
      deriveTarget ic opts ∧
    (buildEngineCall idx ic vp vc vs uvs us opts).flags = deriveFlags opts ∧
    (buildEngineCall idx ic vp vc vs uvs us opts).vertex_lock = none := by
  unfold buildEngineCall
  cases uvs with
  | none => exact ⟨rfl, rfl, rfl, rfl⟩
  | some u =>
    by_cases h : 0 < opts.uv_weight <;> simp [h]

theorem buildEngineCall_variant (idx : List Nat) (ic : Nat) (vp : List ℚ)
    (vc vs : Nat) (uvs : Option (List ℚ)) (us : Nat)
    (opts : MeshoptSimplifyOptions) :
    ((buildEngineCall idx ic vp vc vs uvs us opts).attributePath = true ↔
      uvs ≠ none ∧ 0 < opts.uv_weight) ∧
    ((buildEngineCall idx ic vp vc vs uvs us opts).attributePath = true →
      (buildEngineCall idx ic vp vc vs uvs us opts).vertex_attributes = uvs ∧
      (buildEngineCall idx ic vp vc vs uvs us opts).attribute_count = 2 ∧
      (buildEngineCall idx ic vp vc vs uvs us opts).attribute_weights =
        [opts.uv_weight, opts.uv_weight] ∧
      (buildEngineCall idx ic vp vc vs uvs us opts).attribute_stride = us) ∧
    ((buildEngineCall idx ic vp vc vs uvs us opts).attributePath = false →
      (buildEngineCall idx ic vp vc vs uvs us opts).vertex_attributes = none ∧
      (buildEngineCall idx ic vp vc vs uvs us opts).attribute_count = 0 ∧
      (buildEngineCall idx ic vp vc vs uvs us opts).attribute_weights = []) := by
  unfold buildEngineCall
  cases uvs with
  | none => simp
  | some u => by_cases h : 0 < opts.uv_weight <;> simp [h]

theorem deriveFlags_spec (opts : MeshoptSimplifyOptions) :
    deriveFlags opts =
      (if opts.lock_border ≠ 0 then meshopt_SimplifyLockBorder else 0) |||
      (if opts.error_is_absolute ≠ 0 then meshopt_SimplifyErrorAbsolute else 0) ∧
    ((deriveFlags opts).testBit 0 = true ↔ opts.lock_border ≠ 0) ∧
    ((deriveFlags opts).testBit 2 = true ↔ opts.error_is_absolute ≠ 0) ∧
    deriveFlags opts ||| (meshopt_SimplifyLockBorder ||| meshopt_SimplifyErrorAbsolute) =
      meshopt_SimplifyLockBorder ||| meshopt_SimplifyErrorAbsolute := by
  unfold deriveFlags meshopt_SimplifyLockBorder meshopt_SimplifyErrorAbsolute
  by_cases hl : opts.lock_border ≠ 0 <;>
    by_cases he : opts.error_is_absolute ≠ 0 <;>
      simp [hl, he] <;> decide

theorem deriveTarget_ne_zero (ic : Nat) (opts : MeshoptSimplifyOptions) :
    deriveTarget ic opts ≠ 0 := by
  unfold deriveTarget
  dsimp only
  split_ifs <;> omega

theorem deriveTarget_of_explicit (ic : Nat) (opts : MeshoptSimplifyOptions)
    (h : opts.target_index_count ≠ 0) :
    deriveTarget ic opts = opts.target_index_count := by
  unfold deriveTarget
  simp [h]

theorem drop_of_write (w dst : List Nat) (n : Nat) (h : w.length ≤ n) :
    (w ++ dst.drop w.length).drop n = dst.drop n := by
  have hn : n = w.length + (n - w.length) := by omega
  rw [hn, List.drop_append, List.drop_drop]

/-! ## Claim theorems -/

/-- C1: the claim says every null required pointer (destination, indices,
vertex positions, options, or result) leaves the engine uninvoked, the
destination unmutated, and yields a Result with success = false and the
message "Null pointer in required parameter".  The code however writes the
initial result fields through `result` before its null check, so a null
`result` pointer is dereferenced and no Result carrying the message is ever
produced: the call crashes.  (For the other four pointers the code behaves
exactly as claimed, as the second conjunct shows for a null destination.) -/
theorem c1_null_result_is_dereferenced :
    meshopt_simplify_with_uvs zeroEngine (some [0, 0, 0]) (some [0, 1, 2]) 3
        (some vp3) 3 12 none 0 (some defaultOptions) none = CallOutcome.crash ∧
    meshopt_simplify_with_uvs zeroEngine none (some [0, 1, 2]) 3
        (some vp3) 3 12 none 0 (some defaultOptions) (some blankResult) =
      CallOutcome.ok none (failResult "Null pointer in required parameter") none :=
  ⟨rfl, rfl⟩

/-- C2: the effective target index count is `options.target_index_count` when
nonzero; otherwise, when `target_ratio > 0`, `index_count * target_ratio`
truncated down to the nearest multiple of 3, i.e.
`⌊index_count * target_ratio / 3⌋ * 3`; and whenever the value so derived is
0 it is clamped up to exactly 3. -/
theorem c2_effective_target_count (ic : Nat) (opts : MeshoptSimplifyOptions) :
    deriveTarget ic opts =
      if opts.target_index_count ≠ 0 then opts.target_index_count
      else if 0 < opts.target_ratio then
        (if ⌊(ic : ℚ) * opts.target_ratio / 3⌋₊ * 3 = 0 then 3
         else ⌊(ic : ℚ) * opts.target_ratio / 3⌋₊ * 3)
      else 3 := by
  have hdiv : ⌊(ic : ℚ) * opts.target_ratio / 3⌋₊ =
      ⌊(ic : ℚ) * opts.target_ratio⌋₊ / 3 := by
    have h := Nat.floor_div_nat ((ic : ℚ) * opts.target_ratio) 3
    norm_num at h
    exact h
  unfold deriveTarget
  by_cases h0 : opts.target_index_count = 0
  · by_cases hr : 0 < opts.target_ratio
    · simp [h0, hr, hdiv]
    · simp [h0, hr]
  · simp [h0]

/-- C4: with all required pointers non-null, a zero index or vertex count
fails with "Empty mesh (zero indices or vertices)"; otherwise an index count
that is not a multiple of 3 fails with "Index count must be multiple of 3";
the checks run in that order, the first failure short-circuits (engine trace
`none`, destination untouched) and the reported error is 0. -/
theorem c4_mesh_validation_order (engine : EngineCall → EngineOut)
    (dst idx : List Nat) (ic : Nat) (vp : List ℚ) (vc vs : Nat)
    (uvs : Option (List ℚ)) (us : Nat) (opts : MeshoptSimplifyOptions)
    (r0 : MeshoptSimplifyResult) :
    (ic = 0 ∨ vc = 0 →
      meshopt_simplify_with_uvs engine (some dst) (some idx) ic (some vp) vc vs
          uvs us (some opts) (some r0) =
        CallOutcome.ok (some dst)
          { index_count := 0, result_error := 0, success := 0
            error_message := "Empty mesh (zero indices or vertices)" } none) ∧
    (¬(ic = 0 ∨ vc = 0) → ic % 3 ≠ 0 →
      meshopt_simplify_with_uvs engine (some dst) (some idx) ic (some vp) vc vs
          uvs us (some opts) (some r0) =
        CallOutcome.ok (some dst)
          { index_count := 0, result_error := 0, success := 0
            error_message := "Index count must be multiple of 3" } none) := by
  rw [run_some_eq]
  unfold simplifyValidated
  constructor
  · intro h
    simp [h, failResult]
  · intro h1 h2
    simp [h1, h2, failResult]

/-- Witness for C4 at concrete inputs: an empty mesh (index count 0), and a
7-index mesh (not a multiple of 3). -/
theorem c4_witness :
    meshopt_simplify_with_uvs zeroEngine (some [0, 0, 0]) (some [0, 1, 2]) 0
        (some vp3) 3 12 none 0 (some defaultOptions) (some blankResult) =
      CallOutcome.ok (some [0, 0, 0])
        { index_count := 0, result_error := 0, success := 0
          error_message := "Empty mesh (zero indices or vertices)" } none ∧
    meshopt_simplify_with_uvs zeroEngine (some [9, 9, 9, 9, 9, 9, 9])
        (some [0, 1, 2, 0, 1, 2, 0]) 7 (some vp3) 3 12 none 0
        (some defaultOptions) (some blankResult) =
      CallOutcome.ok (some [9, 9, 9, 9, 9, 9, 9])
        { index_count := 0, result_error := 0, success := 0
          error_message := "Index count must be multiple of 3" } none :=
  ⟨(c4_mesh_validation_order zeroEngine [0, 0, 0] [0, 1, 2] 0 vp3 3 12 none 0
      defaultOptions blankResult).1 (Or.inl rfl),
   (c4_mesh_validation_order zeroEngine [9, 9, 9, 9, 9, 9, 9]
      [0, 1, 2, 0, 1, 2, 0] 7 vp3 3 12 none 0 defaultOptions blankResult).2
      (by decide) (by decide)⟩

/-- C3: a call that passes all validation takes the attribute-aware engine
path exactly when `vertex_uvs` is non-null and `uv_weight > 0`; on that path
the UVs are passed as exactly two scalar attributes, both weighted by
`uv_weight`, with a null per-vertex lock array; in every other case the
position-only path is taken. -/
theorem c3_variant_selection (engine : EngineCall → EngineOut)
    (dst idx : List Nat) (ic : Nat) (vp : List ℚ) (vc vs : Nat)
    (uvs : Option (List ℚ)) (us : Nat) (opts : MeshoptSimplifyOptions)
    (r0 : MeshoptSimplifyResult) (d : Option (List Nat))
    (res : MeshoptSimplifyResult) (c : EngineCall)
    (h : meshopt_simplify_with_uvs engine (some dst) (some idx) ic (some vp)
        vc vs uvs us (some opts) (some r0) = CallOutcome.ok d res (some c)) :
    (c.attributePath = true ↔ uvs ≠ none ∧ 0 < opts.uv_weight) ∧
    (c.attributePath = true →
      c.vertex_attributes = uvs ∧ c.attribute_count = 2 ∧
      c.attribute_weights = [opts.uv_weight, opts.uv_weight] ∧
      c.vertex_lock = none) ∧
    (c.attributePath = false →
      c.vertex_attributes = none ∧ c.attribute_count = 0 ∧
      c.attribute_weights = []) := by
  rw [run_some_eq] at h
  obtain ⟨-, -, -, hc, -, -⟩ := simplifyValidated_ok_engine h
  subst hc
  obtain ⟨hiff, hattr, hbasic⟩ := buildEngineCall_variant idx ic vp vc vs uvs us opts
  obtain ⟨-, -, -, hlock⟩ := buildEngineCall_fixed idx ic vp vc vs uvs us opts
  exact ⟨hiff, fun hp => ⟨(hattr hp).1, (hattr hp).2.1, (hattr hp).2.2.1, hlock⟩,
    fun hp => ⟨(hbasic hp).1, (hbasic hp).2.1, (hbasic hp).2.2⟩⟩

/-- Witness for C3: a concrete valid call with UVs present and weight 1
takes the attribute path with both weights equal to `uv_weight`. -/
theorem c3_witness :
    (buildEngineCall [0, 1, 2] 3 vp3 3 12 (some uv3) 8 optsUV).attributePath = true ∧
    (buildEngineCall [0, 1, 2] 3 vp3 3 12 (some uv3) 8 optsUV).attribute_weights =
      [optsUV.uv_weight, optsUV.uv_weight] := by
  have h := c3_variant_selection zeroEngine [0, 0, 0] [0, 1, 2] 3 vp3 3 12
      (some uv3) 8 optsUV blankResult (some [0, 0, 0])
      { index_count := 0, result_error := 0, success := 1, error_message := "" }
      (buildEngineCall [0, 1, 2] 3 vp3 3 12 (some uv3) 8 optsUV) rfl
  have hp : (buildEngineCall [0, 1, 2] 3 vp3 3 12 (some uv3) 8 optsUV).attributePath = true :=
    h.1.mpr ⟨by decide, by decide⟩
  exact ⟨hp, (h.2.1 hp).2.2.1⟩

/-- C5: on a valid mesh, under the engine contract (return count at most the
input index count, a multiple of 3, writing exactly that many destination
entries), the Result's index count is a multiple of 3 and at most the
original index count, and at most `index_count` destination entries are
written (all entries from position `index_count` on are untouched). -/
theorem c5_result_bounds (engine : EngineCall → EngineOut)
    (dst idx : List Nat) (ic : Nat) (vp : List ℚ) (vc vs : Nat)
    (uvs : Option (List ℚ)) (us : Nat) (opts : MeshoptSimplifyOptions)
    (r0 : MeshoptSimplifyResult) (d : Option (List Nat))
    (res : MeshoptSimplifyResult) (c : EngineCall)
    (hengine : ∀ call : EngineCall,
      (engine call).new_index_count ≤ call.index_count ∧
      (engine call).new_index_count % 3 = 0 ∧
      (engine call).written.length = (engine call).new_index_count)
    (h : meshopt_simplify_with_uvs engine (some dst) (some idx) ic (some vp)
        vc vs uvs us (some opts) (some r0) = CallOutcome.ok d res (some c)) :
    res.index_count % 3 = 0 ∧ res.index_count ≤ ic ∧
    ∃ newdst : List Nat, d = some newdst ∧ newdst.drop ic = dst.drop ic := by
  rw [run_some_eq] at h
  obtain ⟨-, -, -, hc, hd, hres⟩ := simplifyValidated_ok_engine h
  have hic : c.index_count = ic := by
    rw [hc]
    exact (buildEngineCall_fixed idx ic vp vc vs uvs us opts).1
  obtain ⟨hle, h3, hwlen⟩ := hengine c
  refine ⟨by rw [hres]; exact h3, by rw [hres]; exact hic ▸ hle, _, hd, ?_⟩
  exact drop_of_write _ dst ic (by rw [hwlen]; exact hic ▸ hle)

/-- Witness for C5 at a concrete valid call with an engine satisfying the
contract (it returns 0 indices and writes nothing). -/
theorem c5_witness :
    (0 : Nat) % 3 = 0 ∧ (0 : Nat) ≤ 3 ∧
    ∃ newdst : List Nat, (some [0, 0, 0] : Option (List Nat)) = some newdst ∧
      newdst.drop 3 = [0, 0, 0].drop 3 :=
  c5_result_bounds zeroEngine [0, 0, 0] [0, 1, 2] 3 vp3 3 12 none 0
    defaultOptions blankResult (some [0, 0, 0])
    { index_count := 0, result_error := 0, success := 1, error_message := "" }
    (buildEngineCall [0, 1, 2] 3 vp3 3 12 none 0 defaultOptions)
    (fun _ => ⟨Nat.zero_le _, rfl, rfl⟩) rfl

/-- C6: once the engine returns, success is set to 1 unconditionally, the
Result's index count and error are the engine's outputs verbatim, and the
error message stays empty. -/
theorem c6_post_call_packaging (engine : EngineCall → EngineOut)
    (dst idx : List Nat) (ic : Nat) (vp : List ℚ) (vc vs : Nat)
    (uvs : Option (List ℚ)) (us : Nat) (opts : MeshoptSimplifyOptions)
    (r0 : MeshoptSimplifyResult) (d : Option (List Nat))
    (res : MeshoptSimplifyResult) (c : EngineCall)
    (h : meshopt_simplify_with_uvs engine (some dst) (some idx) ic (some vp)
        vc vs uvs us (some opts) (some r0) = CallOutcome.ok d res (some c)) :
    res.success = 1 ∧ res.index_count = (engine c).new_index_count ∧
    res.result_error = (engine c).result_error ∧ res.error_message = "" := by
  rw [run_some_eq] at h
  obtain ⟨-, -, -, -, -, hres⟩ := simplifyValidated_ok_engine h
  rw [hres]
  exact ⟨rfl, rfl, rfl, rfl⟩

/-- Witness for C6 at a concrete valid call. -/
theorem c6_witness :
    ({ index_count := 0, result_error := 0, success := 1, error_message := "" } :
        MeshoptSimplifyResult).success = 1 :=
  (c6_post_call_packaging zeroEngine [0, 0, 0] [0, 1, 2] 3 vp3 3 12 none 0
    defaultOptions blankResult (some [0, 0, 0])
    { index_count := 0, result_error := 0, success := 1, error_message := "" }
    (buildEngineCall [0, 1, 2] 3 vp3 3 12 none 0 defaultOptions) rfl).1

/-- C7: the flags value passed to the engine is the bitwise OR of the
lock-border bit exactly when `lock_border` is set and the absolute-error bit
exactly when `error_is_absolute` is set; the two booleans occupy independent
bits (bit 0 and bit 2) and nothing else contributes to the flags value. -/
theorem c7_flag_mapping (engine : EngineCall → EngineOut)
    (dst idx : List Nat) (ic : Nat) (vp : List ℚ) (vc vs : Nat)
    (uvs : Option (List ℚ)) (us : Nat) (opts : MeshoptSimplifyOptions)
    (r0 : MeshoptSimplifyResult) (d : Option (List Nat))
    (res : MeshoptSimplifyResult) (c : EngineCall)
    (h : meshopt_simplify_with_uvs engine (some dst) (some idx) ic (some vp)
        vc vs uvs us (some opts) (some r0) = CallOutcome.ok d res (some c)) :
    c.flags =
      (if opts.lock_border ≠ 0 then meshopt_SimplifyLockBorder else 0) |||
      (if opts.error_is_absolute ≠ 0 then meshopt_SimplifyErrorAbsolute else 0) ∧
    (c.flags.testBit 0 = true ↔ opts.lock_border ≠ 0) ∧
    (c.flags.testBit 2 = true ↔ opts.error_is_absolute ≠ 0) ∧
    c.flags ||| (meshopt_SimplifyLockBorder ||| meshopt_SimplifyErrorAbsolute) =
      meshopt_SimplifyLockBorder ||| meshopt_SimplifyErrorAbsolute := by
  rw [run_some_eq] at h
  obtain ⟨-, -, -, hc, -, -⟩ := simplifyValidated_ok_engine h
  have hflags : c.flags = deriveFlags opts := by
    rw [hc]
    exact (buildEngineCall_fixed idx ic vp vc vs uvs us opts).2.2.1
  rw [hflags]
  exact deriveFlags_spec opts

/-- Witness for C7: with both booleans set, both bits of the engine flags are
set. -/
theorem c7_witness :
    (buildEngineCall [0, 1, 2] 3 vp3 3 12 none 0 optsBothFlags).flags.testBit 0 = true ∧
    (buildEngineCall [0, 1, 2] 3 vp3 3 12 none 0 optsBothFlags).flags.testBit 2 = true := by
  have h := c7_flag_mapping zeroEngine [0, 0, 0] [0, 1, 2] 3 vp3 3 12 none 0
      optsBothFlags blankResult (some [0, 0, 0])
      { index_count := 0, result_error := 0, success := 1, error_message := "" }
      (buildEngineCall [0, 1, 2] 3 vp3 3 12 none 0 optsBothFlags) rfl
  exact ⟨h.2.1.mpr (by decide), h.2.2.1.mpr (by decide)⟩

/-- C8: the target index count handed to the engine is never 0, and any
nonzero caller-supplied `target_index_count` — even one that is not a
multiple of 3, such as 1 — is handed over as-is, with no validation or
rounding. -/
theorem c8_target_passed_as_is (engine : EngineCall → EngineOut)
    (dst idx : List Nat) (ic : Nat) (vp : List ℚ) (vc vs : Nat)
    (uvs : Option (List ℚ)) (us : Nat) (opts : MeshoptSimplifyOptions)
    (r0 : MeshoptSimplifyResult) (d : Option (List Nat))
    (res : MeshoptSimplifyResult) (c : EngineCall)
    (h : meshopt_simplify_with_uvs engine (some dst) (some idx) ic (some vp)
        vc vs uvs us (some opts) (some r0) = CallOutcome.ok d res (some c)) :
    c.target_index_count ≠ 0 ∧
    (opts.target_index_count ≠ 0 →
      c.target_index_count = opts.target_index_count) := by
  rw [run_some_eq] at h
  obtain ⟨-, -, -, hc, -, -⟩ := simplifyValidated_ok_engine h
  have ht : c.target_index_count = deriveTarget ic opts := by
    rw [hc]
    exact (buildEngineCall_fixed idx ic vp vc vs uvs us opts).2.1
  rw [ht]
  exact ⟨deriveTarget_ne_zero ic opts, deriveTarget_of_explicit ic opts⟩

/-- Witness for C8: a caller target of 1 (not a multiple of 3) reaches the
engine unchanged and is nonzero. -/
theorem c8_witness :
    (buildEngineCall [0, 1, 2] 3 vp3 3 12 none 0 optsTargetOne).target_index_count = 1 ∧
    (buildEngineCall [0, 1, 2] 3 vp3 3 12 none 0 optsTargetOne).target_index_count ≠ 0 := by
  have h := c8_target_passed_as_is zeroEngine [0, 0, 0] [0, 1, 2] 3 vp3 3 12
      none 0 optsTargetOne blankResult (some [0, 0, 0])
      { index_count := 0, result_error := 0, success := 1, error_message := "" }
      (buildEngineCall [0, 1, 2] 3 vp3 3 12 none 0 optsTargetOne) rfl
  exact ⟨h.2 (by decide), h.1⟩

/-- C9: two calls with identical input buffers and options, on different
destination buffers (and different prior result-variable contents), produce
identical Results and identical engine invocations; the Handler keeps no
state between calls (it is a pure function of its arguments, the engine
being a function and hence deterministic). -/
theorem c9_stateless_determinism (engine : EngineCall → EngineOut)
    (dst1 dst2 idx : List Nat) (ic : Nat) (vp : List ℚ) (vc vs : Nat)
    (uvs : Option (List ℚ)) (us : Nat) (opts : MeshoptSimplifyOptions)
    (r1 r2 : MeshoptSimplifyResult) :
    resultOf (meshopt_simplify_with_uvs engine (some dst1) (some idx) ic
        (some vp) vc vs uvs us (some opts) (some r1)) =
      resultOf (meshopt_simplify_with_uvs engine (some dst2) (some idx) ic
        (some vp) vc vs uvs us (some opts) (some r2)) ∧
    engineCallOf (meshopt_simplify_with_uvs engine (some dst1) (some idx) ic
        (some vp) vc vs uvs us (some opts) (some r1)) =
      engineCallOf (meshopt_simplify_with_uvs engine (some dst2) (some idx) ic
        (some vp) vc vs uvs us (some opts) (some r2)) := by
  rw [run_some_eq, run_some_eq]
  unfold simplifyValidated
  split_ifs <;> simp [engineBranch, resultOf, engineCallOf]

/-- C10: `target_ratio` is never validated against its documented (0, 1]
range.  With `target_index_count = 0`: a ratio above 1 still goes through
the ratio formula (whose value can exceed the original index count, as the
final conjunct exhibits at index count 36 and ratio 2) and is passed to the
engine unchecked, while a negative ratio skips the ratio branch so the
target falls back to 3, exactly as when no ratio is given. -/
theorem c10_ratio_never_validated (ic : Nat) (opts : MeshoptSimplifyOptions)
    (h0 : opts.target_index_count = 0) :
    (1 < opts.target_ratio → 3 ≤ ic →
      deriveTarget ic opts = ⌊(ic : ℚ) * opts.target_ratio / 3⌋₊ * 3) ∧
    (opts.target_ratio < 0 → deriveTarget ic opts = 3) ∧
    (∃ n : Nat, ∃ o : MeshoptSimplifyOptions, o.target_index_count = 0 ∧
      1 < o.target_ratio ∧ n < deriveTarget n o) := by
  have hdiv : ⌊(ic : ℚ) * opts.target_ratio / 3⌋₊ =
      ⌊(ic : ℚ) * opts.target_ratio⌋₊ / 3 := by
    have h := Nat.floor_div_nat ((ic : ℚ) * opts.target_ratio) 3
    norm_num at h
    exact h
  refine ⟨fun hr hic => ?_, fun hr => ?_, 36, optsRatioTwo, rfl, by norm_num [optsRatioTwo], ?_⟩
  · have hr0 : 0 < opts.target_ratio := lt_trans one_pos hr
    have hicq : (3 : ℚ) ≤ (ic : ℚ) := by exact_mod_cast hic
    have hge : (1 : ℚ) ≤ (ic : ℚ) * opts.target_ratio / 3 := by nlinarith
    have hfl : 1 ≤ ⌊(ic : ℚ) * opts.target_ratio / 3⌋₊ := Nat.le_floor (by exact_mod_cast hge)
    unfold deriveTarget
    dsimp only
    rw [if_pos (And.intro h0 hr0), ← hdiv, if_neg (by omega)]
  · have hnot : ¬(opts.target_index_count = 0 ∧ 0 < opts.target_ratio) := by
      rintro ⟨-, hpos⟩
      exact absurd hpos (not_lt.mpr hr.le)
    unfold deriveTarget
    dsimp only
    rw [if_neg hnot, if_pos h0]
  · show 36 < deriveTarget 36 optsRatioTwo
    have h72 : deriveTarget 36 optsRatioTwo = 72 := by
      unfold deriveTarget optsRatioTwo
      norm_num
    omega

/-- Witness for C10: ratio 2 at index count 36 yields target 72 (exceeding
36), and ratio -1 falls back to target 3. -/
theorem c10_witness :
    deriveTarget 36 optsRatioTwo =
      ⌊((36 : Nat) : ℚ) * optsRatioTwo.target_ratio / 3⌋₊ * 3 ∧
    deriveTarget 36 optsRatioNeg = 3 :=
  ⟨(c10_ratio_never_validated 36 optsRatioTwo rfl).1 (by decide) (by decide),
   (c10_ratio_never_validated 36 optsRatioNeg rfl).2.1 (by decide)⟩

end MeshoptWrapper
